import Mathlib

/-!
Verification of the digikey-client repository (src/main.py and
src/product_details_api.py) against its natural-language specification.

The Python code is shallowly embedded: JSON / Python values are modelled by
the inductive `JVal`, fallible Python operations (attribute errors, key
errors, ...) return `Except PyErr`, the retry loops and the pagination loop
are modelled as explicitly recursive functions whose observable effects
(page requests, batches handed to the store, sleeps, token refreshes) are
returned as traces, and the JSON store file is modelled by `FileState`
(missing / unparsable / parsed value).
-/

/-- A JSON-like Python value: `None`, booleans, integers, strings, lists and
dicts (dicts as association lists, first binding wins, as in `dict.get`).
Floats do not occur in any verified property and are not modelled. -/
inductive JVal where
  | null
  | bool (b : Bool)
  | int (n : Int)
  | str (s : String)
  | arr (xs : List JVal)
  | obj (fields : List (String × JVal))

/-- The Python exceptions the embedded operations can raise. -/
inductive PyErr where
  | typeError
  | keyError
  | indexError
  | attributeError
  | ioError
deriving DecidableEq

/-- Python truthiness (`bool(v)`): `None`, `False`, `0`, `""`, `[]`, `{}` are
falsy, everything else in the model is truthy. -/
def truthy : JVal → Bool
  | JVal.null => false
  | JVal.bool b => b
  | JVal.int n => n != 0
  | JVal.str s => s.length != 0
  | JVal.arr xs => !xs.isEmpty
  | JVal.obj fs => !fs.isEmpty

/-- Python `v.get(key, default)`: succeeds only on dicts (`AttributeError`
otherwise), missing key yields the default. -/
def dictGet (v : JVal) (key : String) (dflt : JVal) : Except PyErr JVal :=
  match v with
  | JVal.obj fs =>
    match fs.lookup key with
    | some x => Except.ok x
    | none => Except.ok dflt
  | _ => Except.error PyErr.attributeError

/-- Python subscript with a string key, `v[key]`: dict lookup (`KeyError`
when absent), `TypeError` on every other value. -/
def pyIndexStr (v : JVal) (key : String) : Except PyErr JVal :=
  match v with
  | JVal.obj fs =>
    match fs.lookup key with
    | some x => Except.ok x
    | none => Except.error PyErr.keyError
  | _ => Except.error PyErr.typeError

/-- Python subscript with a non-negative int index, `v[i]`: list/str
indexing (`IndexError` out of range), `KeyError` on dicts (the int key is
never present: model dict keys are strings), `TypeError` otherwise. -/
def pySub (v : JVal) (i : Nat) : Except PyErr JVal :=
  match v with
  | JVal.arr xs =>
    match xs.get? i with
    | some x => Except.ok x
    | none => Except.error PyErr.indexError
  | JVal.str s =>
    match s.toList.get? i with
    | some c => Except.ok (JVal.str (String.singleton c))
    | none => Except.error PyErr.indexError
  | JVal.obj _ => Except.error PyErr.keyError
  | _ => Except.error PyErr.typeError

/-- Python `len(v)`: defined on strings, lists and dicts, `TypeError`
otherwise. -/
def pyLen (v : JVal) : Except PyErr Nat :=
  match v with
  | JVal.str s => Except.ok s.length
  | JVal.arr xs => Except.ok xs.length
  | JVal.obj fs => Except.ok fs.length
  | _ => Except.error PyErr.typeError

/-- Python `a >= v` where `a` is an int: numeric comparison against ints and
bools, `TypeError` against any other value. -/
def pyGe (a : Int) (v : JVal) : Except PyErr Bool :=
  match v with
  | JVal.int n => Except.ok (decide (a ≥ n))
  | JVal.bool b => Except.ok (decide (a ≥ (if b then (1 : Int) else 0)))
  | _ => Except.error PyErr.typeError

/-- Python iteration `for x in v`: lists iterate elements, strings iterate
one-character strings, dicts iterate keys; `TypeError` otherwise. -/
def pyIter (v : JVal) : Except PyErr (List JVal) :=
  match v with
  | JVal.arr xs => Except.ok xs
  | JVal.str s => Except.ok (s.toList.map (fun c => JVal.str (String.singleton c)))
  | JVal.obj fs => Except.ok (fs.map (fun kv => JVal.str kv.fst))
  | _ => Except.error PyErr.typeError

/-- Whether character list `pat` occurs contiguously inside `cs`. -/
def charsHasSub (pat : List Char) : List Char → Bool
  | [] => pat.isEmpty
  | c :: rest => pat.isPrefixOf (c :: rest) || charsHasSub pat rest

/-- Python membership test with a string on the left, `key in v`: dict key
test, list element test, substring test on strings, `TypeError` on
non-container values. -/
def pyContainsStr (v : JVal) (key : String) : Except PyErr Bool :=
  match v with
  | JVal.obj fs => Except.ok (fs.any (fun kv => kv.fst == key))
  | JVal.arr xs =>
    Except.ok (xs.any (fun x => match x with | JVal.str t => t == key | _ => false))
  | JVal.str s => Except.ok (charsHasSub key.toList s.toList)
  | _ => Except.error PyErr.typeError

mutual
/-- Python `repr` of a value (used by `str()` on lists and dicts); the exact
rendering is irrelevant to every verified property. -/
def pyRepr : JVal → String
  | JVal.null => "None"
  | JVal.bool b => if b then "True" else "False"
  | JVal.int n => toString n
  | JVal.str s => "\x27" ++ s ++ "\x27"
  | JVal.arr xs => "[" ++ pyReprElems xs ++ "]"
  | JVal.obj fs => "\x7b" ++ pyReprFields fs ++ "\x7d"

/-- Comma-separated `repr` of list elements. -/
def pyReprElems : List JVal → String
  | [] => ""
  | [x] => pyRepr x
  | x :: y :: rest => pyRepr x ++ ", " ++ pyReprElems (y :: rest)

/-- Comma-separated `repr` of dict entries. -/
def pyReprFields : List (String × JVal) → String
  | [] => ""
  | [kv] => "\x27" ++ kv.fst ++ "\x27: " ++ pyRepr kv.snd
  | kv :: y :: rest => "\x27" ++ kv.fst ++ "\x27: " ++ pyRepr kv.snd ++ ", " ++ pyReprFields (y :: rest)
end

/-- Python `str(v)` as used inside f-strings. -/
def pyFStr : JVal → String
  | JVal.null => "None"
  | JVal.bool b => if b then "True" else "False"
  | JVal.int n => toString n
  | JVal.str s => s
  | JVal.arr xs => pyRepr (JVal.arr xs)
  | JVal.obj fs => pyRepr (JVal.obj fs)

/-! ## HttpRetryClient: the retry loop of `DgkeySdk._search_product` (src/main.py, lines 118-140) -/

/-- Observable outcome of one run of the `_search_product` retry loop:
the backoff sleeps performed (in order), the number of `token_update`
(credential refresh) calls, and the value returned to the caller. -/
structure RetryTrace where
  sleeps : List Nat
  refreshes : Nat
  result : JVal

/-- The `while retries < max_retries` loop of `_search_product`.
`att retries` is the outcome of the HTTP attempt made with the given value
of `retries`: `some body` when the request returns 2xx (the parsed JSON
body), `none` when it raises `requests.exceptions.RequestException`
(network failure or `raise_for_status` on a non-2xx status). The first
argument is the number of loop iterations still allowed,
`max_retries - retries`; on failure the code does `retries += 1`, sleeps
`backoff_factor ** retries` seconds and calls `self.token_update()`.
When the budget is exhausted the loop falls through and returns `{}`. -/
def searchRetry (att : Nat → Option JVal) (backoff_factor : Nat) :
    Nat → Nat → List Nat → Nat → RetryTrace
  | 0, _, sleeps, refr => ⟨sleeps, refr, JVal.obj []⟩
  | remaining + 1, retries, sleeps, refr =>
    match att retries with
    | some body => ⟨sleeps, refr, body⟩
    | none =>
      searchRetry att backoff_factor remaining (retries + 1)
        (sleeps ++ [backoff_factor ^ (retries + 1)]) (refr + 1)

/-- `_search_product`'s retry loop entered with `retries = 0`. -/
def search_product_retry (att : Nat → Option JVal) (max_retries backoff_factor : Nat) :
    RetryTrace :=
  searchRetry att backoff_factor max_retries 0 [] 0

/-! ## The retry loop of `ProductDetailsAPI.get_product_details`
(src/product_details_api.py, lines 76-118) -/

/-- Outcome of one HTTP attempt in `get_product_details`: either
`requests.get` itself raises a `RequestException` (network failure), or a
response with the given status code and parsed body is received. -/
inductive DetailAttempt where
  | netErr
  | status (code : Nat) (body : JVal)

/-- Observable outcome of one run of the `get_product_details` retry loop.
`refreshes` counts credential-refresh calls; the loop body contains no
refresh call at all (the class has no `token_update`), so every exit point
reports `0`. -/
structure DetailTrace where
  sleeps : List Nat
  refreshes : Nat
  result : JVal

/-- The `while retries < max_retries` loop of `get_product_details`.
First argument is the remaining iteration budget `max_retries - retries`.
A 404 status returns `{}` at once; any other 4xx/5xx status makes
`raise_for_status` raise `HTTPError` (whose handler re-checks for 404 — a
dead branch, mirrored here) and a network error raises
`RequestException`; both failure handlers do `retries += 1` and sleep
`backoff_factor ** retries` only when `retries < max_retries` still holds,
so the last failed attempt is not followed by a sleep. -/
def detailRetry (att : Nat → DetailAttempt) (max_retries backoff_factor : Nat) :
    Nat → Nat → List Nat → DetailTrace
  | 0, _, sleeps => ⟨sleeps, 0, JVal.obj []⟩
  | remaining + 1, retries, sleeps =>
    match att retries with
    | DetailAttempt.netErr =>
      if retries + 1 < max_retries then
        detailRetry att max_retries backoff_factor remaining (retries + 1)
          (sleeps ++ [backoff_factor ^ (retries + 1)])
      else
        detailRetry att max_retries backoff_factor remaining (retries + 1) sleeps
    | DetailAttempt.status code body =>
      if code = 404 then ⟨sleeps, 0, JVal.obj []⟩
      else if 400 ≤ code ∧ code < 600 then
        if code = 404 then ⟨sleeps, 0, JVal.obj []⟩
        else if retries + 1 < max_retries then
          detailRetry att max_retries backoff_factor remaining (retries + 1)
            (sleeps ++ [backoff_factor ^ (retries + 1)])
        else
          detailRetry att max_retries backoff_factor remaining (retries + 1) sleeps
      else ⟨sleeps, 0, body⟩

/-- `get_product_details`'s retry loop entered with `retries = 0`. -/
def get_product_details_retry (att : Nat → DetailAttempt) (max_retries backoff_factor : Nat) :
    DetailTrace :=
  detailRetry att max_retries backoff_factor max_retries 0 []

/-- Whether an attempt makes the `get_product_details` loop retry: either
`requests.get` raises a network-level `RequestException`, or the response
status makes `raise_for_status` raise `HTTPError` — which it does exactly
for the 4xx/5xx range — other than the 404 that short-circuits to `{}`
before `raise_for_status` runs. -/
def detailAttemptFails (a : DetailAttempt) : Bool :=
  match a with
  | DetailAttempt.netErr => true
  | DetailAttempt.status code _ =>
    decide (400 ≤ code) && decide (code < 600) && decide (code ≠ 404)

/-! ## PaginationDriver: `DgkeySdk.search_products` (src/main.py, lines 142-158) -/

/-- Result of the per-keyword `while True` pagination loop: `diverged` when
the iteration budget runs out (the Python loop would still be running),
`raised e` when an uncaught Python exception escapes, and
`done requests stored` on normal exit, where `requests` lists the offsets
of the page requests issued in order and `stored` lists the
`(products, offset)` pairs handed to `process_products` in order. -/
inductive LoopRes where
  | diverged
  | raised (e : PyErr)
  | done (requests : List Nat) (stored : List (JVal × Nat))

/-- The per-keyword `while True` loop of `search_products`. Each iteration
requests the page at `offset` (`resp offset` is the dict returned by
`_search_product`, `{}` being the retry-exhaustion sentinel), breaks on a
falsy response, reads `ProductsCount` (default 0) and `Products`
(default `[]`), evaluates `len(products)` for the log line, hands
`(products, offset)` to `process_products`, advances `offset += limit`, and
breaks when `offset >= product_count`. -/
def searchLoop (resp : Nat → JVal) (limit : Nat) :
    Nat → Nat → List Nat → List (JVal × Nat) → LoopRes
  | 0, _, _, _ => LoopRes.diverged
  | fuel + 1, offset, reqs, stored =>
    let r := resp offset
    let reqs2 := reqs ++ [offset]
    if truthy r = false then LoopRes.done reqs2 stored
    else
      match dictGet r "ProductsCount" (JVal.int 0) with
      | Except.error e => LoopRes.raised e
      | Except.ok pc =>
        match dictGet r "Products" (JVal.arr []) with
        | Except.error e => LoopRes.raised e
        | Except.ok products =>
          match pyLen products with
          | Except.error e => LoopRes.raised e
          | Except.ok _ =>
            let stored2 := stored ++ [(products, offset)]
            let off2 := offset + limit
            match pyGe (off2 : Int) pc with
            | Except.error e => LoopRes.raised e
            | Except.ok true => LoopRes.done reqs2 stored2
            | Except.ok false => searchLoop resp limit fuel off2 reqs2 stored2

/-- `search_products`: for each keyword in `categories` independently, run
the pagination loop starting at `offset = 0` with the hard-coded
`limit = 50`. `resp c off` is the response `_search_product` produces for
keyword `c` at offset `off`. -/
def search_products (resp : String → Nat → JVal) (categories : List String)
    (fuel : Nat) : List (String × LoopRes) :=
  categories.map (fun c => (c, searchLoop (resp c) 50 fuel 0 [] []))

/-- A successful page response for a search: truthy, reporting
`ProductsCount = total` and carrying the product list `ps`. -/
def validResp (r : JVal) (total : Nat) (ps : List JVal) : Prop :=
  truthy r = true ∧
  dictGet r "ProductsCount" (JVal.int 0) = Except.ok (JVal.int (total : Int)) ∧
  dictGet r "Products" (JVal.arr []) = Except.ok (JVal.arr ps)

/-! ## IncrementalJSONStore: `DgkeySdk.process_products` (src/main.py, lines 159-215) -/

/-- The on-disk state of the JSON store file as `json.load` distinguishes
it: absent, present but not parsable as JSON, or parsed to a value. -/
inductive FileState where
  | missing
  | invalid
  | valid (v : JVal)

/-- Environment of one `process_products` call: the current store file and
whether the write (`open(..., 'w')`) fails with an OS error. -/
structure StoreEnv where
  file : FileState
  writeFails : Bool

/-- Observable outcome of `process_products`: the resulting store file, the
products printed to standard output by the `except` fallback, and the value
returned to the caller (the Python function has no `return` statement, so
both exits return `None`). -/
structure StoreResult where
  file : FileState
  printed : List JVal
  ret : JVal

/-- The URL recorded in the batch metadata. -/
def mkBatchUrl (offset limit : Nat) : String :=
  "https://api.digikey.com/products/v4/search/keyword?offset=" ++ toString offset
    ++ "&limit=" ++ toString limit

/-- The `batch_data` dict built by `process_products` (src/main.py,
lines 171-180): metadata (url, offset, limit, `product_count` =
`len(products)`, timestamp) plus the products list itself. -/
def mkBatch (products : List JVal) (offset limit : Nat) (ts : String) : JVal :=
  JVal.obj
    [("metadata", JVal.obj
        [("url", JVal.str (mkBatchUrl offset limit)),
         ("offset", JVal.int (offset : Int)),
         ("limit", JVal.int (limit : Int)),
         ("product_count", JVal.int (products.length : Int)),
         ("timestamp", JVal.str ts)]),
     ("products", JVal.arr products)]

/-- Whether a value is a Python dict (the per-product log line calls
`product.get`, which raises `AttributeError` on anything else). -/
def isObj : JVal → Bool
  | JVal.obj _ => true
  | _ => false

/-- `process_products(products, offset, limit)`. Inside the `try` block it
reads the existing file (a `JSONDecodeError` is logged and treated as an
empty collection, a single non-list value is wrapped into a one-element
list), appends the new batch, and rewrites the file. If the write raises,
the `except` handler prints every product to standard output. After a
successful write the per-product log loop calls `product.get`, so a
non-dict product raises there and the same `except` handler prints all
products (the file keeps the already-written new collection). Both paths
fall off the end of the function and return `None`. -/
def process_products (env : StoreEnv) (products : List JVal) (offset limit : Nat)
    (ts : String) : StoreResult :=
  let batch := mkBatch products offset limit ts
  let existing : List JVal :=
    match env.file with
    | FileState.missing => []
    | FileState.invalid => []
    | FileState.valid (JVal.arr xs) => xs
    | FileState.valid v => [v]
  let newData := existing ++ [batch]
  if env.writeFails then
    ⟨env.file, products, JVal.null⟩
  else if products.all isObj then
    ⟨FileState.valid (JVal.arr newData), [], JVal.null⟩
  else
    ⟨FileState.valid (JVal.arr newData), products, JVal.null⟩

/-! ## CredentialProvider: the two `get_access_token` methods -/

/-- Environment of a `get_access_token` call: the parsed content of
`token_storage.json` if the file exists, and its content after
`token_update()` has run (`token_update` delegates token refresh to the
digikey SDK, which persists the new token to that file). -/
structure TokenEnv where
  file : Option JVal
  fileAfterRefresh : Option JVal

/-- Observable outcome of `get_access_token`: whether `token_update`
(credential refresh) was called, and the value produced (`data
['access_token']`, or an uncaught exception). -/
structure TokenResult where
  refreshed : Bool
  value : Except PyErr JVal

/-- `DgkeySdk.get_access_token` (src/main.py, lines 39-54): when the token
file is absent it first calls `self.token_update()`, then opens the file
and returns `data['access_token']` (an `IOError` if the file still does
not exist after the refresh). -/
def main_get_access_token (env : TokenEnv) : TokenResult :=
  match env.file with
  | some v => ⟨false, pyIndexStr v "access_token"⟩
  | none =>
    match env.fileAfterRefresh with
    | some v => ⟨true, pyIndexStr v "access_token"⟩
    | none => ⟨true, Except.error PyErr.ioError⟩

/-- `ProductDetailsAPI.get_access_token` (src/product_details_api.py,
lines 30-39): when the token file is absent it only logs an error and
returns `None` — it never calls any refresh (the class has no
`token_update` at all). -/
def details_get_access_token (env : TokenEnv) : TokenResult :=
  match env.file with
  | some v => ⟨false, pyIndexStr v "access_token"⟩
  | none => ⟨false, Except.ok JVal.null⟩

/-! ## RecordMapper: `ProductDetailsAPI.map_product_details_to_structure`
(src/product_details_api.py, lines 120-285) -/

/-- The nested helper `safe_get(obj, key, default="")`: total, returns the
default whenever `obj` is not a dict. -/
def safe_get (obj : JVal) (key : String) (dflt : JVal) : JVal :=
  match obj with
  | JVal.obj fs =>
    match fs.lookup key with
    | some x => x
    | none => dflt
  | _ => dflt

/-- Body of the `for param in parameters` loop of `get_parameter_value`:
`param.get('ParameterText')` (default `None`) is compared against the
parameter text; on the first match the loop returns
`param.get('ValueText', default)`. -/
def get_parameter_value_go (parameter_text : String) (dflt : JVal) :
    List JVal → Except PyErr JVal
  | [] => Except.ok dflt
  | p :: rest => do
    let t ← dictGet p "ParameterText" JVal.null
    match t with
    | JVal.str s =>
      if s = parameter_text then dictGet p "ValueText" dflt
      else get_parameter_value_go parameter_text dflt rest
    | _ => get_parameter_value_go parameter_text dflt rest

/-- The nested helper `get_parameter_value(parameters, parameter_text,
default="")`: falsy `parameters` yields the default, otherwise the list is
iterated looking for a matching `ParameterText` entry. -/
def get_parameter_value (parameters : JVal) (parameter_text : String)
    (dflt : JVal) : Except PyErr JVal :=
  if truthy parameters = false then Except.ok dflt
  else do
    let xs ← pyIter parameters
    get_parameter_value_go parameter_text dflt xs

/-- The nested helper `format_bulk_prices(variations)`: empty unless
`variations[0].get('StandardPricing')` is truthy, otherwise each price tier
is rendered as `f"{qty}+-{price}"` and the tiers are joined with `;`. -/
def format_bulk_prices (variations : JVal) : Except PyErr JVal :=
  if truthy variations = false then Except.ok (JVal.str "")
  else do
    let v0 ← pySub variations 0
    let sp ← dictGet v0 "StandardPricing" JVal.null
    if truthy sp = false then Except.ok (JVal.str "")
    else do
      let v0b ← pySub variations 0
      let spl ← pyIndexStr v0b "StandardPricing"
      let tiers ← pyIter spl
      let rendered ← tiers.mapM (fun tier => do
        let qty ← dictGet tier "BreakQuantity" (JVal.int 0)
        let price ← dictGet tier "UnitPrice" (JVal.int 0)
        pure (pyFStr qty ++ "+-" ++ pyFStr price))
      pure (JVal.str (String.intercalate ";" rendered))

/-- The nested helper `get_base_price(variations)`: `0` unless
`variations[0].get('StandardPricing')` is truthy, otherwise
`variations[0]['StandardPricing'][0].get('UnitPrice', 0)`. -/
def get_base_price (variations : JVal) : Except PyErr JVal :=
  if truthy variations = false then Except.ok (JVal.int 0)
  else do
    let v0 ← pySub variations 0
    let sp ← dictGet v0 "StandardPricing" JVal.null
    if truthy sp = false then Except.ok (JVal.int 0)
    else do
      let v0b ← pySub variations 0
      let spl ← pyIndexStr v0b "StandardPricing"
      let first ← pySub spl 0
      dictGet first "UnitPrice" (JVal.int 0)

/-- The nested helper `format_photos(photo_url)`:
`f"{photo_url}|{photo_url}"` when truthy, else the empty string. -/
def format_photos (photo_url : JVal) : String :=
  if truthy photo_url then pyFStr photo_url ++ "|" ++ pyFStr photo_url else ""

/-- The nested helper `format_datasheets(datasheet_url)`: prepends
`https:` when the URL starts with `//`; calls `.startswith`, which raises
`AttributeError` on a truthy non-string value. -/
def format_datasheets (datasheet_url : JVal) : Except PyErr JVal :=
  if truthy datasheet_url = false then Except.ok (JVal.str "")
  else
    match datasheet_url with
    | JVal.str s =>
      if "//".isPrefixOf s then Except.ok (JVal.str ("https:" ++ s))
      else Except.ok (JVal.str s)
    | _ => Except.error PyErr.attributeError

/-- The nested helper `format_other_names(other_names)`: joins a truthy
list with commas (`str.join` raises `TypeError` on a non-string element);
anything else yields the empty string. -/
def format_other_names (other_names : JVal) : Except PyErr JVal :=
  if truthy other_names then
    match other_names with
    | JVal.arr xs => do
      let ss ← xs.mapM (fun x =>
        match x with
        | JVal.str s => Except.ok s
        | _ => Except.error PyErr.typeError)
      pure (JVal.str (String.intercalate "," ss))
    | _ => Except.ok (JVal.str "")
  else Except.ok (JVal.str "")

/-- The nested helper `get_category_hierarchy(category)`: the main category
name plus up to four child-category names, empty strings otherwise. -/
def get_category_hierarchy (category : JVal) :
    Except PyErr (JVal × JVal × JVal × JVal × JVal) :=
  if truthy category = false then
    Except.ok (JVal.str "", JVal.str "", JVal.str "", JVal.str "", JVal.str "")
  else do
    let mainCat ← dictGet category "Name" (JVal.str "")
    let childs ← dictGet category "ChildCategories" (JVal.arr [])
    if truthy childs = false then
      Except.ok (mainCat, JVal.str "", JVal.str "", JVal.str "", JVal.str "")
    else do
      let c0 ← pySub childs 0
      let sub ← dictGet c0 "Name" (JVal.str "")
      let n ← pyLen childs
      let sub2 ← if 1 < n then do
          let c1 ← pySub childs 1
          dictGet c1 "Name" (JVal.str "")
        else pure (JVal.str "")
      let sub3 ← if 2 < n then do
          let c2 ← pySub childs 2
          dictGet c2 "Name" (JVal.str "")
        else pure (JVal.str "")
      let sub4 ← if 3 < n then do
          let c3 ← pySub childs 3
          dictGet c3 "Name" (JVal.str "")
        else pure (JVal.str "")
      pure (mainCat, sub, sub2, sub3, sub4)

/-- The values extracted from `product` before the output dict is built
(src/product_details_api.py, lines 217-226). -/
structure PreVals where
  parameters : JVal
  variations : JVal
  description : JVal
  manufacturer : JVal
  category : JVal
  classifications : JVal
  series : JVal
  mainCat : JVal
  subCat : JVal
  subSubCat : JVal
  subSubSubCat : JVal
  subSubSubSubCat : JVal

/-- Lines 217-226: the seven `product.get` extractions followed by
`get_category_hierarchy(category)`, in source order. -/
def pre_vals (product : JVal) : Except PyErr PreVals := do
  let parameters ← dictGet product "Parameters" (JVal.arr [])
  let variations ← dictGet product "ProductVariations" (JVal.arr [])
  let description ← dictGet product "Description" (JVal.obj [])
  let manufacturer ← dictGet product "Manufacturer" (JVal.obj [])
  let category ← dictGet product "Category" (JVal.obj [])
  let classifications ← dictGet product "Classifications" (JVal.obj [])
  let series ← dictGet product "Series" (JVal.obj [])
  let cats ← get_category_hierarchy category
  pure ⟨parameters, variations, description, manufacturer, category,
    classifications, series, cats.1, cats.2.1, cats.2.2.1, cats.2.2.2.1,
    cats.2.2.2.2⟩

/-- The fallible value expressions of the `mapped_product` dict literal
(src/product_details_api.py, lines 229-283), one field per expression, in
literal order; the infallible `safe_get` expressions are evaluated in
`build_mapped` below. -/
structure MappedVals where
  manufacturerPartNumber : JVal
  basePrice : JVal
  bulkPrices : JVal
  stockQuantity : JVal
  leadTimeInDays : JVal
  manufacturerStandardPackage : JVal
  packagingType : JVal
  photos : JVal
  datasheets : JVal
  otherNames : JVal
  typeParam : JVal
  partStatus : JVal
  color : JVal
  width : JVal
  lengthParam : JVal
  shelfLife : JVal
  storageTemperature : JVal
  features : JVal
  baseProductNumber : JVal
  material : JVal
  shrinkageRatio : JVal
  innerDiameterSupplied : JVal
  innerDiameterRecovered : JVal
  recoveredWallThickness : JVal
  operatingTemperature : JVal
  shrinkTemperature : JVal
  link : JVal

/-- Evaluates the fallible dict-literal value expressions in source order.
`LeadTimeInDays` first evaluates the conditional
`product.get('ManufacturerLeadWeeks')` and only re-reads the key when it is
truthy, as the Python conditional expression does. -/
def mapped_vals (product : JVal) (p : PreVals) : Except PyErr MappedVals := do
  let mpn ← dictGet product "ManufacturerProductNumber" (JVal.str "")
  let base ← get_base_price p.variations
  let bulk ← format_bulk_prices p.variations
  let stock ← dictGet product "QuantityAvailable" (JVal.int 0)
  let leadCond ← dictGet product "ManufacturerLeadWeeks" JVal.null
  let lead ←
    if truthy leadCond then do
      let w ← dictGet product "ManufacturerLeadWeeks" (JVal.str "")
      pure (JVal.str (pyFStr w ++ " Weeks"))
    else pure (JVal.str "")
  let mstd ←
    if truthy p.variations then do
      let v0 ← pySub p.variations 0
      dictGet v0 "StandardPackage" (JVal.str "")
    else pure (JVal.str "")
  let pkg ←
    if truthy p.variations then do
      let v0 ← pySub p.variations 0
      let pt ← dictGet v0 "PackageType" (JVal.obj [])
      dictGet pt "Name" (JVal.str "")
    else pure (JVal.str "")
  let photoUrl ← dictGet product "PhotoUrl" JVal.null
  let dsUrl ← dictGet product "DatasheetUrl" JVal.null
  let ds ← format_datasheets dsUrl
  let otherRaw ← dictGet product "OtherNames" JVal.null
  let others ← format_other_names otherRaw
  let ty ← get_parameter_value p.parameters "Type" (JVal.str "")
  let pstatObj ← dictGet product "ProductStatus" (JVal.obj [])
  let col ← get_parameter_value p.parameters "Color" (JVal.str "")
  let wid ← get_parameter_value p.parameters "Width" (JVal.str "")
  let len2 ← get_parameter_value p.parameters "Length" (JVal.str "")
  let shelf ← get_parameter_value p.parameters "Shelf Life" (JVal.str "")
  let stor ← get_parameter_value p.parameters "Storage/Refrigeration Temperature" (JVal.str "")
  let feat ← get_parameter_value p.parameters "Features" (JVal.str "")
  let bpnObj ← dictGet product "BaseProductNumber" (JVal.obj [])
  let mat ← get_parameter_value p.parameters "Material" (JVal.str "")
  let shr ← get_parameter_value p.parameters "Shrinkage Ratio" (JVal.str "")
  let ids ← get_parameter_value p.parameters "Inner Diameter - Supplied" (JVal.str "")
  let idr ← get_parameter_value p.parameters "Inner Diameter - Recovered" (JVal.str "")
  let rwt ← get_parameter_value p.parameters "Recovered Wall Thickness" (JVal.str "")
  let otp ← get_parameter_value p.parameters "Operating Temperature" (JVal.str "")
  let sht ← get_parameter_value p.parameters "Shrink Temperature" (JVal.str "")
  let lnk ← dictGet product "ProductUrl" (JVal.str "")
  pure ⟨mpn, base, bulk, stock, lead, mstd, pkg, JVal.str (format_photos photoUrl),
    ds, others, ty, safe_get pstatObj "Status" (JVal.str ""), col, wid, len2,
    shelf, stor, feat, safe_get bpnObj "Name" (JVal.str ""), mat, shr, ids, idr,
    rwt, otp, sht, lnk⟩

/-- The `mapped_product` dict literal: fixed keys in source order, values
from the extracted `PreVals` and the fallible `MappedVals`. -/
def build_mapped (p : PreVals) (m : MappedVals) : JVal :=
  JVal.obj
    [("Product_Name_En", safe_get p.description "ProductDescription" (JVal.str "")),
     ("ManufacturerPartNumber", m.manufacturerPartNumber),
     ("Manufacturer_Name", safe_get p.manufacturer "Name" (JVal.str "")),
     ("Series", safe_get p.series "Name" (JVal.str "")),
     ("ShortDescription_En", safe_get p.description "ProductDescription" (JVal.str "")),
     ("Description_En", safe_get p.description "DetailedDescription" (JVal.str "")),
     ("CountryOfOrigin", JVal.str ""),
     ("ExpirationDate", JVal.str ""),
     ("RoHSCompliant", safe_get p.classifications "RohsStatus" (JVal.str "")),
     ("BasePrice", m.basePrice),
     ("BulkPrices", m.bulkPrices),
     ("StockQuantity", m.stockQuantity),
     ("LeadTimeInDays", m.leadTimeInDays),
     ("Manufacturer_Standard_Package", m.manufacturerStandardPackage),
     ("PackagingType", m.packagingType),
     ("Warnings", JVal.str ""),
     ("Photos", m.photos),
     ("Photos360", JVal.str ""),
     ("Datasheets", m.datasheets),
     ("Environmental_Information", JVal.str ""),
     ("Featured_Product", JVal.str ""),
     ("MSDS_Material_Safety_Datasheet", JVal.str ""),
     ("Product_Brief", JVal.str ""),
     ("Category", p.mainCat),
     ("Subcategory", p.subCat),
     ("Sub-Subcategory", p.subSubCat),
     ("Sub-sub-subcategory", p.subSubSubCat),
     ("Sub-sub-sub-subcategory", p.subSubSubSubCat),
     ("Moisture_Sensitivity_Level_(MSL)", safe_get p.classifications "MoistureSensitivityLevel" (JVal.str "")),
     ("REACH_Status", safe_get p.classifications "ReachStatus" (JVal.str "")),
     ("ECCN", safe_get p.classifications "ExportControlClassNumber" (JVal.str "")),
     ("HTSUS", safe_get p.classifications "HtsusCode" (JVal.str "")),
     ("Other_Names", m.otherNames),
     ("Alternate_Color", JVal.str ""),
     ("Alternate_Length", JVal.str ""),
     ("Type", m.typeParam),
     ("Part_Status", m.partStatus),
     ("Color", m.color),
     ("Width", m.width),
     ("Length", m.lengthParam),
     ("Shelf_Life", m.shelfLife),
     ("Shelf_Life_Start", JVal.str ""),
     ("Storage/Refrigeration_Temperature", m.storageTemperature),
     ("Features", m.features),
     ("Base_Product_Number", m.baseProductNumber),
     ("Material", m.material),
     ("Shrinkage_Ratio", m.shrinkageRatio),
     ("Inner_Diameter_-_Supplied", m.innerDiameterSupplied),
     ("Inner_Diameter_-_Recovered", m.innerDiameterRecovered),
     ("Recovered_Wall_Thickness", m.recoveredWallThickness),
     ("Operating_Temperature", m.operatingTemperature),
     ("Shrink_Temperature", m.shrinkTemperature),
     ("Link", m.link)]

/-- `map_product_details_to_structure(api_response)`: the guard
`if not api_response or 'Product' not in api_response` returns `{}`;
otherwise `product = api_response['Product']` is extracted and the mapped
record is built. -/
def map_product_details_to_structure (api_response : JVal) : Except PyErr JVal :=
  if truthy api_response = false then Except.ok (JVal.obj [])
  else
    match pyContainsStr api_response "Product" with
    | Except.error e => Except.error e
    | Except.ok false => Except.ok (JVal.obj [])
    | Except.ok true =>
      match pyIndexStr api_response "Product" with
      | Except.error e => Except.error e
      | Except.ok product =>
        (pre_vals product).bind
          (fun p => Except.map (build_mapped p) (mapped_vals product p))

/-- The fixed key set of the mapped record, in source order. -/
def mapped_keys : List String :=
  ["Product_Name_En", "ManufacturerPartNumber", "Manufacturer_Name", "Series",
   "ShortDescription_En", "Description_En", "CountryOfOrigin", "ExpirationDate",
   "RoHSCompliant", "BasePrice", "BulkPrices", "StockQuantity", "LeadTimeInDays",
   "Manufacturer_Standard_Package", "PackagingType", "Warnings", "Photos",
   "Photos360", "Datasheets", "Environmental_Information", "Featured_Product",
   "MSDS_Material_Safety_Datasheet", "Product_Brief", "Category", "Subcategory",
   "Sub-Subcategory", "Sub-sub-subcategory", "Sub-sub-sub-subcategory",
   "Moisture_Sensitivity_Level_(MSL)", "REACH_Status", "ECCN", "HTSUS",
   "Other_Names", "Alternate_Color", "Alternate_Length", "Type", "Part_Status",
   "Color", "Width", "Length", "Shelf_Life", "Shelf_Life_Start",
   "Storage/Refrigeration_Temperature", "Features", "Base_Product_Number",
   "Material", "Shrinkage_Ratio", "Inner_Diameter_-_Supplied",
   "Inner_Diameter_-_Recovered", "Recovered_Wall_Thickness",
   "Operating_Temperature", "Shrink_Temperature", "Link"]

/-- The key list of a dict value (empty for non-dicts). -/
def objKeys : JVal → List String
  | JVal.obj fs => fs.map Prod.fst
  | _ => []

/-- The payload of a successful `Except` computation (`JVal.null` on
error); used only to state closed witnesses. -/
def okValue : Except PyErr JVal → JVal
  | Except.ok v => v
  | Except.error _ => JVal.null

/-- Key lookup on a dict value (`none` on non-dicts); used to state
properties of stored batches. -/
def objLookup (v : JVal) (key : String) : Option JVal :=
  match v with
  | JVal.obj fs => fs.lookup key
  | _ => none

/-- A successful search response reporting `ProductsCount = 0` with an
empty product list — the response the vendor returns when a keyword has no
results. -/
def respZero : Nat → JVal :=
  fun _ => JVal.obj [("ProductsCount", JVal.int 0), ("Products", JVal.arr [])]

/-- `respZero` for every keyword. -/
def respZeroPages : String → Nat → JVal := fun _ => respZero

/-- A well-formed detail-lookup response whose `Product` entry is a dict. -/
def sampleDetailResp : JVal :=
  JVal.obj [("Product", JVal.obj [("X", JVal.int 1)])]

/-- A successful search response reporting `ProductsCount = 120` with a
one-element product list, for every offset. -/
def resp120 : Nat → JVal :=
  fun _ => JVal.obj [("ProductsCount", JVal.int 120), ("Products", JVal.arr [JVal.int 7])]

/-! ## Helper lemmas -/

theorem except_bind_ok {E A B : Type} {e : Except E A} {f : A → Except E B} {v : B}
    (h : e.bind f = Except.ok v) : ∃ a, e = Except.ok a ∧ f a = Except.ok v := by
  cases e with
  | ok a => exact ⟨a, rfl, h⟩
  | error x => simp [Except.bind] at h

theorem except_map_ok {E A B : Type} {e : Except E A} {f : A → B} {v : B}
    (h : Except.map f e = Except.ok v) : ∃ a, e = Except.ok a ∧ v = f a := by
  cases e with
  | ok a =>
    refine ⟨a, rfl, ?_⟩
    simp [Except.map] at h
    exact h.symm
  | error x => simp [Except.map] at h

theorem range_succ_map {α : Type} (g : Nat → α) (k : Nat) :
    (List.range (k + 1)).map g = g 0 :: (List.range k).map (fun i => g (i + 1)) := by
  rw [List.range_succ_eq_map, List.map_cons, List.map_map]
  rfl

/-! ## Claim C4: 404 short-circuit in `get_product_details` -/

/-- Claim C4: for every product number, if the detail-lookup request
returns HTTP 404 on the first attempt, `get_product_details` returns the
empty result at once: no backoff sleep is performed and credential refresh
is called zero times. -/
theorem detail_404_short_circuit (att : Nat → DetailAttempt)
    (max_retries backoff_factor : Nat) (body : JVal)
    (h1 : 1 ≤ max_retries) (h2 : att 0 = DetailAttempt.status 404 body) :
    get_product_details_retry att max_retries backoff_factor
      = ⟨[], 0, JVal.obj []⟩ := by
  obtain ⟨m, rfl⟩ : ∃ m, max_retries = m + 1 := ⟨max_retries - 1, by omega⟩
  simp [get_product_details_retry, detailRetry, h2]

/-- Witness for C4 at a concrete always-404 stub. -/
theorem detail_404_short_circuit_witness :
    get_product_details_retry (fun _ => DetailAttempt.status 404 (JVal.obj [])) 3 2
      = ⟨[], 0, JVal.obj []⟩ :=
  detail_404_short_circuit (fun _ => DetailAttempt.status 404 (JVal.obj [])) 3 2
    (JVal.obj []) (by omega) rfl

/-! ## Claim C5: corruption recovery in the JSON store -/

/-- Claim C5: for every batch, if the store file exists but its content is
not parsable as JSON, `process_products` succeeds without raising and the
resulting file holds a valid JSON list with exactly one element, the new
batch; the prior corrupt content is discarded. -/
theorem store_corruption_recovery (products : List JVal) (offset limit : Nat)
    (ts : String) :
    (process_products ⟨FileState.invalid, false⟩ products offset limit ts).file
      = FileState.valid (JVal.arr [mkBatch products offset limit ts]) := by
  by_cases h : products.all isObj <;> simp [process_products, h]

/-! ## Claim C6: append preserves and extends the stored collection -/

/-- Claim C6: for every existing store file parsing to a JSON list `L`, a
successful append writes back exactly `L` with the new batch at the end
(length grows by one, prior batches untouched and in order), and appending
the same batch twice yields two entries. -/
theorem store_append_preserves (L products : List JVal) (offset limit : Nat)
    (ts : String) :
    (process_products ⟨FileState.valid (JVal.arr L), false⟩ products offset limit ts).file
        = FileState.valid (JVal.arr (L ++ [mkBatch products offset limit ts])) ∧
    (process_products
        ⟨FileState.valid (JVal.arr (L ++ [mkBatch products offset limit ts])), false⟩
        products offset limit ts).file
        = FileState.valid (JVal.arr
            (L ++ [mkBatch products offset limit ts, mkBatch products offset limit ts])) ∧
    (L ++ [mkBatch products offset limit ts]).length = L.length + 1 := by
  refine ⟨?_, ?_, by simp⟩ <;>
    by_cases h : products.all isObj <;> simp [process_products, h]

/-! ## Claim C7: behaviour of the store when the write fails -/

/-- Counterexample to C7 as stated: on a write failure `process_products`
prints the products and swallows the exception, but it returns `None`
(`JVal.null`) — exactly the value a successful call returns — so no failure
is reported to the caller. -/
theorem store_write_failure_report_cex :
    process_products ⟨FileState.missing, true⟩ [JVal.obj []] 0 50 "t"
        = ⟨FileState.missing, [JVal.obj []], JVal.null⟩ ∧
    (process_products ⟨FileState.missing, false⟩ [JVal.obj []] 0 50 "t").ret
        = JVal.null :=
  ⟨rfl, rfl⟩

/-- Claim C7 amended: if writing the store file fails, `process_products`
emits the batch's items to standard output as a fallback and never lets the
exception propagate, but it does not report the failure to its caller: like
the success path it returns `None` (failure is only logged). -/
theorem store_write_failure_fallback (env : StoreEnv) (products : List JVal)
    (offset limit : Nat) (ts : String) (h : env.writeFails = true) :
    process_products env products offset limit ts
      = ⟨env.file, products, JVal.null⟩ := by
  simp [process_products, h]

/-- Witness for the amended C7 at a concrete failing environment. -/
theorem store_write_failure_fallback_witness :
    process_products ⟨FileState.invalid, true⟩ [JVal.int 1] 0 50 "t"
      = ⟨FileState.invalid, [JVal.int 1], JVal.null⟩ :=
  store_write_failure_fallback ⟨FileState.invalid, true⟩ [JVal.int 1] 0 50 "t" rfl

/-! ## Claim C8: lazy refresh in `get_access_token` -/

/-- Counterexample to C8 as stated: `ProductDetailsAPI.get_access_token`
(one of the two cited implementations), called with the token file absent,
performs no refresh and returns `None` — it returns without a credential. -/
theorem token_lazy_refresh_cex :
    details_get_access_token ⟨none, none⟩ = ⟨false, Except.ok JVal.null⟩ :=
  rfl

/-- Claim C8 amended: when the token file is absent,
`DgkeySdk.get_access_token` calls `token_update` (credential refresh)
before returning, while `ProductDetailsAPI.get_access_token` does not
refresh and returns `None`. -/
theorem token_lazy_refresh (env : TokenEnv) (h : env.file = none) :
    (main_get_access_token env).refreshed = true ∧
    details_get_access_token env = ⟨false, Except.ok JVal.null⟩ := by
  obtain ⟨f, fr⟩ := env
  simp only at h
  subst h
  cases fr <;> simp [main_get_access_token, details_get_access_token]

/-- Witness for the amended C8: absent token file, refresh recreates it. -/
theorem token_lazy_refresh_witness :
    (main_get_access_token
        ⟨none, some (JVal.obj [("access_token", JVal.str "tok")])⟩).refreshed = true ∧
    details_get_access_token ⟨none, some (JVal.obj [("access_token", JVal.str "tok")])⟩
      = ⟨false, Except.ok JVal.null⟩ :=
  token_lazy_refresh ⟨none, some (JVal.obj [("access_token", JVal.str "tok")])⟩ rfl

/-! ## Claim C9: `product_count` metadata matches the stored items -/

/-- Claim C9: the batch built and stored by `process_products` carries
`metadata.product_count` equal to the length of its `products` list. -/
theorem batch_product_count_invariant (products : List JVal) (offset limit : Nat)
    (ts : String) :
    objLookup (mkBatch products offset limit ts) "products"
        = some (JVal.arr products) ∧
    (objLookup (mkBatch products offset limit ts) "metadata").bind
        (fun md => objLookup md "product_count")
        = some (JVal.int (products.length : Int)) ∧
    (process_products ⟨FileState.missing, false⟩ products offset limit ts).file
        = FileState.valid (JVal.arr [mkBatch products offset limit ts]) := by
  refine ⟨rfl, rfl, ?_⟩
  by_cases h : products.all isObj <;> simp [process_products, h]

/-! ## Claim C3: retry exhaustion -/

theorem searchRetry_exhaust (att : Nat → Option JVal) (bf : Nat)
    (h : ∀ n, att n = none) :
    ∀ (k retries : Nat) (sleeps : List Nat) (refr : Nat),
      searchRetry att bf k retries sleeps refr
        = ⟨sleeps ++ (List.range k).map (fun i => bf ^ (retries + i + 1)),
           refr + k, JVal.obj []⟩ := by
  intro k
  induction k with
  | zero => intro retries sleeps refr; simp [searchRetry]
  | succ k ih =>
    intro retries sleeps refr
    simp only [searchRetry, h retries]
    rw [ih (retries + 1)]
    simp only [RetryTrace.mk.injEq]
    refine ⟨?_, by omega, trivial⟩
    rw [range_succ_map (fun i => bf ^ (retries + i + 1)) k]
    have hm : (List.range k).map (fun i => bf ^ (retries + 1 + i + 1))
        = (List.range k).map (fun i => bf ^ (retries + (i + 1) + 1)) :=
      List.map_congr_left (fun i _ => by congr 1; omega)
    rw [hm]
    simp [List.append_assoc]

theorem detailRetry_fail_step (att : Nat → DetailAttempt) (maxR bf : Nat)
    (remaining retries : Nat) (sleeps : List Nat)
    (hf : detailAttemptFails (att retries) = true) :
    detailRetry att maxR bf (remaining + 1) retries sleeps
      = if retries + 1 < maxR then
          detailRetry att maxR bf remaining (retries + 1)
            (sleeps ++ [bf ^ (retries + 1)])
        else
          detailRetry att maxR bf remaining (retries + 1) sleeps := by
  cases hatt : att retries with
  | netErr => simp only [detailRetry, hatt]
  | status code body =>
    rw [hatt] at hf
    simp only [detailAttemptFails, Bool.and_eq_true, decide_eq_true_eq] at hf
    obtain ⟨⟨hc1, hc2⟩, hc3⟩ := hf
    simp only [detailRetry, hatt]
    rw [if_neg hc3, if_pos ⟨hc1, hc2⟩, if_neg hc3]

theorem detailRetry_exhaust (att : Nat → DetailAttempt) (maxR bf : Nat)
    (h : ∀ n, detailAttemptFails (att n) = true) :
    ∀ (k retries : Nat) (sleeps : List Nat), retries + k = maxR →
      detailRetry att maxR bf k retries sleeps
        = ⟨sleeps ++ (List.range (k - 1)).map (fun i => bf ^ (retries + i + 1)),
           0, JVal.obj []⟩ := by
  intro k
  induction k with
  | zero => intro retries sleeps hk; simp [detailRetry]
  | succ k ih =>
    intro retries sleeps hk
    rw [detailRetry_fail_step att maxR bf k retries sleeps (h retries)]
    by_cases hlt : retries + 1 < maxR
    · rw [if_pos hlt, ih (retries + 1) _ (by omega)]
      obtain ⟨k2, rfl⟩ : ∃ k2, k = k2 + 1 := ⟨k - 1, by omega⟩
      simp only [DetailTrace.mk.injEq]
      refine ⟨?_, trivial, trivial⟩
      rw [show k2 + 1 + 1 - 1 = k2 + 1 from by omega,
        range_succ_map (fun i => bf ^ (retries + i + 1)) k2]
      have hm : (List.range (k2 + 1 - 1)).map (fun i => bf ^ (retries + 1 + i + 1))
          = (List.range k2).map (fun i => bf ^ (retries + (i + 1) + 1)) := by
        rw [show k2 + 1 - 1 = k2 from by omega]
        exact List.map_congr_left (fun i _ => by congr 1; omega)
      rw [hm]
      simp [List.append_assoc]
    · rw [if_neg hlt, ih (retries + 1) _ (by omega)]
      have hk0 : k = 0 := by omega
      subst hk0
      simp

/-- Counterexample to C3 as stated: with `max_retries = 3` and
`backoff_factor = 2`, an always-failing `get_product_details` (the second
code path the claim covers) sleeps `[2, 4]` — not `[2, 4, 8]` — and calls
credential refresh `0` times, not `3`; this holds both for network-level
failures and for non-2xx statuses (here 500, the `except HTTPError` path).
`_search_product` alone matches the claimed schedule. -/
theorem retry_exhaustion_detail_cex :
    get_product_details_retry (fun _ => DetailAttempt.netErr) 3 2
        = ⟨[2, 4], 0, JVal.obj []⟩ ∧
    get_product_details_retry (fun _ => DetailAttempt.status 500 (JVal.obj [])) 3 2
        = ⟨[2, 4], 0, JVal.obj []⟩ ∧
    search_product_retry (fun _ => none) 3 2 = ⟨[2, 4, 8], 3, JVal.obj []⟩ :=
  ⟨rfl, rfl, rfl⟩

/-- Claim C3 amended: when every attempt fails — a network exception, or a
non-2xx status that makes `raise_for_status` raise (a 4xx/5xx other than
the short-circuiting 404) — `_search_product` calls credential refresh
exactly `max_retries` times, sleeps
`backoff_factor^1, …, backoff_factor^max_retries` in that order and then
returns the empty sentinel; `get_product_details` never calls credential
refresh (it has none) and sleeps only
`backoff_factor^1, …, backoff_factor^(max_retries-1)` before returning the
empty sentinel. For `_search_product` the source merges both failure kinds
into its single `except RequestException` handler, so `attS n = none`
covers them uniformly. -/
theorem retry_exhaustion_schedules (attS : Nat → Option JVal)
    (attD : Nat → DetailAttempt) (max_retries backoff_factor : Nat)
    (h1 : 1 ≤ max_retries) (hS : ∀ n, attS n = none)
    (hD : ∀ n, detailAttemptFails (attD n) = true) :
    search_product_retry attS max_retries backoff_factor
        = ⟨(List.range max_retries).map (fun i => backoff_factor ^ (i + 1)),
           max_retries, JVal.obj []⟩ ∧
    get_product_details_retry attD max_retries backoff_factor
        = ⟨(List.range (max_retries - 1)).map (fun i => backoff_factor ^ (i + 1)),
           0, JVal.obj []⟩ := by
  constructor
  · rw [search_product_retry, searchRetry_exhaust attS backoff_factor hS max_retries 0 [] 0]
    simp
  · rw [get_product_details_retry,
      detailRetry_exhaust attD max_retries backoff_factor hD max_retries 0 [] (by omega)]
    simp

/-- Witness for the amended C3 at concrete always-failing stubs; the detail
stub mixes an HTTP 500 first attempt with network failures afterwards. -/
theorem retry_exhaustion_schedules_witness :
    search_product_retry (fun _ => none) 2 3
        = ⟨(List.range 2).map (fun i => 3 ^ (i + 1)), 2, JVal.obj []⟩ ∧
    get_product_details_retry
        (fun n => if n = 0 then DetailAttempt.status 500 (JVal.obj [])
                  else DetailAttempt.netErr) 2 3
        = ⟨(List.range (2 - 1)).map (fun i => 3 ^ (i + 1)), 0, JVal.obj []⟩ :=
  retry_exhaustion_schedules (fun _ => none)
    (fun n => if n = 0 then DetailAttempt.status 500 (JVal.obj [])
              else DetailAttempt.netErr) 2 3
    (by omega) (fun _ => rfl) (fun n => by cases n <;> rfl)

/-! ## Claims C1 and C2: pagination -/

theorem searchLoop_done (resp : Nat → JVal) (limit total : Nat)
    (prods : Nat → List JVal) (hv : ∀ off, validResp (resp off) total (prods off)) :
    ∀ (k offset fuel : Nat) (reqs : List Nat) (stored : List (JVal × Nat)),
      offset + k * limit < total → total ≤ offset + (k + 1) * limit →
      k + 1 ≤ fuel →
      searchLoop resp limit fuel offset reqs stored
        = LoopRes.done
            (reqs ++ (List.range (k + 1)).map (fun i => offset + i * limit))
            (stored ++ (List.range (k + 1)).map
              (fun i => (JVal.arr (prods (offset + i * limit)), offset + i * limit))) := by
  intro k
  induction k with
  | zero =>
    intro offset fuel reqs stored h1 h2 hf
    obtain ⟨f, rfl⟩ : ∃ f, fuel = f + 1 := ⟨fuel - 1, by omega⟩
    obtain ⟨ht, hpc, hps⟩ := hv offset
    have hge : pyGe ((offset + limit : Nat) : Int) (JVal.int (total : Int))
        = Except.ok true := by
      simp only [pyGe, ge_iff_le, Except.ok.injEq, decide_eq_true_eq]
      have : total ≤ offset + limit := by
        have := h2
        omega
      exact_mod_cast this
    simp only [searchLoop, ht, hpc, hps, pyLen, hge]
    simp [List.range_succ]

  | succ k ih =>
    intro offset fuel reqs stored h1 h2 hf
    obtain ⟨f, rfl⟩ : ∃ f, fuel = f + 1 := ⟨fuel - 1, by omega⟩
    obtain ⟨ht, hpc, hps⟩ := hv offset
    have e1 : (k + 1) * limit = k * limit + 1 * limit := Nat.add_mul k 1 limit
    have e2 : (1 : Nat) * limit = limit := Nat.one_mul limit
    have e3 : (k + 1 + 1) * limit = (k + 1) * limit + 1 * limit :=
      Nat.add_mul (k + 1) 1 limit
    have hlt : offset + limit < total := by omega
    have hge : pyGe ((offset + limit : Nat) : Int) (JVal.int (total : Int))
        = Except.ok false := by
      simp only [pyGe, ge_iff_le, Except.ok.injEq, decide_eq_false_iff_not]
      intro hcon
      have : (total : Int) ≤ ((offset + limit : Nat) : Int) := hcon
      have : total ≤ offset + limit := by exact_mod_cast this
      omega
    have hrec := ih (offset + limit) f (reqs ++ [offset])
      (stored ++ [(JVal.arr (prods offset), offset)])
      (by omega) (by omega) (by omega)
    simp only [searchLoop, ht, hpc, hps, pyLen, hge]
    rw [hrec]
    have ha : ∀ i : Nat, offset + limit + i * limit = offset + (i + 1) * limit := by
      intro i
      have ei : (i + 1) * limit = i * limit + 1 * limit := Nat.add_mul i 1 limit
      omega
    have hm1 : (List.range (k + 1)).map (fun i => offset + limit + i * limit)
        = (List.range (k + 1)).map (fun i => offset + (i + 1) * limit) :=
      List.map_congr_left (fun i _ => ha i)
    have hm2 : (List.range (k + 1)).map
          (fun i => (JVal.arr (prods (offset + limit + i * limit)), offset + limit + i * limit))
        = (List.range (k + 1)).map
          (fun i => (JVal.arr (prods (offset + (i + 1) * limit)), offset + (i + 1) * limit)) :=
      List.map_congr_left (fun i _ => by rw [ha i])
    rw [hm1, hm2,
      range_succ_map (fun i => offset + i * limit) (k + 1),
      range_succ_map
        (fun i => (JVal.arr (prods (offset + i * limit)), offset + i * limit)) (k + 1)]
    simp [List.append_assoc]

/-- Counterexample to C1 as stated: for `total_count = 0` (a valid value
under the claim) the loop still issues one page request — `search_products`
on one keyword performs the request at offset 0 — although
`ceil(0 / 50) = 0` requests were claimed. -/
theorem pagination_zero_total_requests_cex :
    search_products respZeroPages ["Amplifiers"] 5
        = [("Amplifiers", LoopRes.done [0] [(JVal.arr [], 0)])] ∧
    (0 + 50 - 1) / 50 = 0 :=
  ⟨rfl, rfl⟩

/-- Claim C1 amended: when every page fetch succeeds and reports the same
`total_count`, the pagination loop issues exactly
`ceil(total_count / page_size)` page requests with offsets
`0, page_size, 2*page_size, …` in order — provided `total_count ≥ 1`; for
`total_count = 0` it still issues the single request at offset 0 needed to
learn the count. -/
theorem pagination_request_schedule (resp : Nat → JVal) (prods : Nat → List JVal)
    (total limit fuel : Nat) (hl : 0 < limit)
    (hv : ∀ off, validResp (resp off) total (prods off)) :
    (1 ≤ total → (total + limit - 1) / limit ≤ fuel →
      searchLoop resp limit fuel 0 [] []
        = LoopRes.done
            ((List.range ((total + limit - 1) / limit)).map (fun i => i * limit))
            ((List.range ((total + limit - 1) / limit)).map
              (fun i => (JVal.arr (prods (i * limit)), i * limit)))) ∧
    (total = 0 → 1 ≤ fuel →
      searchLoop resp limit fuel 0 [] []
        = LoopRes.done [0] [(JVal.arr (prods 0), 0)]) := by
  constructor
  · intro h1 hf
    obtain ⟨r, hr, hdm⟩ : ∃ r, r < limit ∧
        limit * ((total + limit - 1) / limit) + r = total + limit - 1 :=
      ⟨(total + limit - 1) % limit, Nat.mod_lt _ hl, Nat.div_add_mod _ _⟩
    generalize hq : (total + limit - 1) / limit = q at hdm hf ⊢
    have hq1 : 1 ≤ q := by
      by_contra hcon
      have h0 : q = 0 := by omega
      rw [h0, Nat.mul_zero] at hdm
      omega
    obtain ⟨k, rfl⟩ : ∃ k, q = k + 1 := ⟨q - 1, by omega⟩
    have e1 : limit * (k + 1) = limit * k + limit := Nat.mul_succ limit k
    have e2 : (k + 1) * limit = limit * (k + 1) := Nat.mul_comm _ _
    have e3 : k * limit = limit * k := Nat.mul_comm _ _
    have h1x : 0 + k * limit < total := by omega
    have h2x : total ≤ 0 + (k + 1) * limit := by omega
    rw [searchLoop_done resp limit total prods hv k 0 fuel [] [] h1x h2x (by omega)]
    simp
  · intro h0 hf
    subst h0
    obtain ⟨f, rfl⟩ : ∃ f, fuel = f + 1 := ⟨fuel - 1, by omega⟩
    obtain ⟨ht, hpc, hps⟩ := hv 0
    have hge : pyGe ((0 + limit : Nat) : Int) (JVal.int ((0 : Nat) : Int))
        = Except.ok true := by
      simp only [pyGe, ge_iff_le, Except.ok.injEq, decide_eq_true_eq]
      omega
    simp only [searchLoop, ht, hpc, hps, pyLen, hge]
    simp

/-- Witness for the amended C1: `total_count = 120`, `page_size = 50` (the
spec's end-to-end scenario) gives three requests at offsets 0, 50, 100. -/
theorem pagination_request_schedule_witness :
    searchLoop resp120 50 3 0 [] []
        = LoopRes.done
            ((List.range ((120 + 50 - 1) / 50)).map (fun i => i * 50))
            ((List.range ((120 + 50 - 1) / 50)).map
              (fun i => (JVal.arr [JVal.int 7], i * 50))) :=
  (pagination_request_schedule resp120 (fun _ => [JVal.int 7]) 120 50 3 (by omega)
    (fun _ => ⟨rfl, rfl, rfl⟩)).1 (by omega) (by omega)

/-- Counterexample to C2 as stated: on a successful first page reporting
`ProductsCount = 0`, the loop hands one batch — with an empty product
list — to `process_products`; the claim asserted nothing is handed to the
store. -/
theorem pagination_zero_total_batch_cex :
    searchLoop respZero 50 5 0 [] [] = LoopRes.done [0] [(JVal.arr [], 0)] ∧
    ([(JVal.arr [], 0)] : List (JVal × Nat)) ≠ [] :=
  ⟨rfl, by simp⟩

/-- Claim C2 amended: if the first page fetch succeeds and reports
`total_count = 0`, the pagination loop for that keyword terminates after
that single request with no error, handing exactly one batch — whose
product list is the (empty) list of that page — to the store. -/
theorem pagination_zero_total_one_empty_batch (resp : Nat → JVal)
    (ps : List JVal) (limit fuel : Nat) (hv : validResp (resp 0) 0 ps)
    (hf : 1 ≤ fuel) :
    searchLoop resp limit fuel 0 [] [] = LoopRes.done [0] [(JVal.arr ps, 0)] := by
  obtain ⟨f, rfl⟩ : ∃ f, fuel = f + 1 := ⟨fuel - 1, by omega⟩
  obtain ⟨ht, hpc, hps⟩ := hv
  have hge : pyGe ((0 + limit : Nat) : Int) (JVal.int ((0 : Nat) : Int))
      = Except.ok true := by
    simp only [pyGe, ge_iff_le, Except.ok.injEq, decide_eq_true_eq]
    omega
  simp only [searchLoop, ht, hpc, hps, pyLen, hge]
  simp

/-- Witness for the amended C2 at the concrete zero-result response. -/
theorem pagination_zero_total_one_empty_batch_witness :
    searchLoop respZero 50 1 0 [] [] = LoopRes.done [0] [(JVal.arr [], 0)] :=
  pagination_zero_total_one_empty_batch respZero [] 50 1 ⟨rfl, rfl, rfl⟩ (by omega)

/-! ## Claim C10: mapper guard behaviour and output keys -/

/-- Counterexample to C10 as stated: the mapping `{"Product": 5}` contains
the key `Product`, yet `map_product_details_to_structure` does not return a
record with the fixed key set — `product.get('Parameters', [])` raises
`AttributeError` because the `Product` value is not a dict. -/
theorem map_structure_raise_cex :
    map_product_details_to_structure (JVal.obj [("Product", JVal.int 5)])
      = Except.error PyErr.attributeError :=
  rfl

/-- Claim C10 amended: an empty (falsy) input, or a mapping lacking the key
`Product`, yields `{}` without raising; and whenever the mapper returns
normally on an input containing `Product`, the returned record carries
exactly the full fixed key set (`Product_Name_En`,
`ManufacturerPartNumber`, `BasePrice`, `Link`, …) — but a mapping whose
`Product` value is malformed can raise instead of returning. -/
theorem map_structure_guard_and_keys :
    (∀ r, truthy r = false →
      map_product_details_to_structure r = Except.ok (JVal.obj [])) ∧
    (∀ fs : List (String × JVal), fs.any (fun kv => kv.fst == "Product") = false →
      map_product_details_to_structure (JVal.obj fs) = Except.ok (JVal.obj [])) ∧
    (∀ r v, truthy r = true → pyContainsStr r "Product" = Except.ok true →
      map_product_details_to_structure r = Except.ok v →
      objKeys v = mapped_keys) := by
  refine ⟨?_, ?_, ?_⟩
  · intro r h
    simp [map_product_details_to_structure, h]
  · intro fs h
    by_cases ht : truthy (JVal.obj fs) = false
    · simp [map_product_details_to_structure, ht]
    · have ht2 : truthy (JVal.obj fs) = true := by
        cases hb : truthy (JVal.obj fs)
        · exact absurd hb ht
        · rfl
      simp [map_product_details_to_structure, ht2, pyContainsStr, h]
  · intro r v ht hc h
    rw [map_product_details_to_structure] at h
    rw [ht] at h
    simp only [Bool.true_eq_false, if_false] at h
    rw [hc] at h
    cases hpi : pyIndexStr r "Product" with
    | error e => rw [hpi] at h; simp at h
    | ok product =>
      rw [hpi] at h
      obtain ⟨p, hp, h2⟩ := except_bind_ok h
      obtain ⟨m, hm, hv2⟩ := except_map_ok h2
      rw [hv2]
      rfl

/-- Witness for the amended C10: a falsy input, a mapping without
`Product`, and a well-formed response on which the mapper returns the full
key set. -/
theorem map_structure_guard_and_keys_witness :
    map_product_details_to_structure (JVal.int 0) = Except.ok (JVal.obj []) ∧
    map_product_details_to_structure (JVal.obj [("A", JVal.int 0)])
      = Except.ok (JVal.obj []) ∧
    objKeys (okValue (map_product_details_to_structure sampleDetailResp))
      = mapped_keys := by
  refine ⟨?_, ?_, ?_⟩
  · exact map_structure_guard_and_keys.1 (JVal.int 0) rfl
  · exact map_structure_guard_and_keys.2.1 [("A", JVal.int 0)] rfl
  · exact map_structure_guard_and_keys.2.2 sampleDetailResp
      (okValue (map_product_details_to_structure sampleDetailResp)) rfl rfl rfl
